import Mathlib

/-!
Shallow embedding of the meter-data acquisition and normalization pipeline of
the dbus-Home-Wizard-Energy-P1 repository, following
`src/homewizard_energy/meter_client.py` and
`src/homewizard_energy/dbus_service.py`.

Python dictionaries decoded from JSON are modelled as association lists with
unique keys (`Reading`); JSON values are modelled by `Value` (null, rational
number, or string).  Python exceptions are modelled by the explicit error type
`PyErr`; the one library fact the code depends on — which exception classes
are subclasses of `requests.exceptions.RequestException` — is recorded in
`PyErr.isRequestException`, with the requests-version-dependent status of
`JSONDecodeError` kept as a boolean parameter.  The network is modelled by a
`FetchOutcome` value handed to each fetch.
-/

namespace HomeWizard

/-- A JSON value as it appears in a decoded meter reading. -/
inductive Value where
  | null : Value
  | num : ℚ → Value
  | str : String → Value
deriving DecidableEq, Repr

/-- A decoded JSON object: association list with the dict's key order. -/
abbrev Reading := List (String × Value)

/-- Dictionary key lookup (first matching key; actual dicts have unique keys). -/
def lookupKey : Reading → String → Option Value
  | [], _ => none
  | (k', v) :: rest, k => if k' = k then some v else lookupKey rest k

/-- Python `k in d` membership test. -/
def containsKey (d : Reading) (k : String) : Bool :=
  (lookupKey d k).isSome

/-- Python truthiness of a JSON value: `None`, `0` and `""` are falsy. -/
def Value.truthy : Value → Bool
  | .null => false
  | .num q => q != 0
  | .str s => s != ""

/-- Python truthiness of `d.get(k)`: falsy when the key is absent or the
value itself is falsy. -/
def truthyGet (d : Reading) (k : String) : Bool :=
  match lookupKey d k with
  | none => false
  | some v => v.truthy

/-- Python `d[k] = v` / `dict.update` entry semantics: replace in place if the
key exists, else append. -/
def setKey : Reading → String → Value → Reading
  | [], k, v => [(k, v)]
  | (k', v') :: rest, k, v =>
      if k' = k then (k, v) :: rest else (k', v') :: setKey rest k v

/-- The Python exceptions the embedded code can raise.  `jsonDecodeError`
carries whether the installed requests library makes it a subclass of
`requests.exceptions.RequestException` (true for requests >= 2.27, where
`response.json()` raises `requests.exceptions.JSONDecodeError`; false for
older versions, where it raises a plain `ValueError` subclass). -/
inductive PyErr where
  | requestException
  | connectionError
  | valueError
  | typeError
  | jsonDecodeError (isReqExc : Bool)
  | keyError (k : String)
deriving DecidableEq, Repr

/-- Whether the exception is caught by
`except requests.exceptions.RequestException`.  The builtin `ConnectionError`
raised by `raise ConnectionError(...)` in `get_data` subclasses `OSError`,
not `RequestException`, so it is not caught there. -/
def PyErr.isRequestException : PyErr → Bool
  | .requestException => true
  | .jsonDecodeError b => b
  | _ => false

instance : DecidableEq (Except PyErr Reading) := fun a b =>
  match a, b with
  | .ok x, .ok y =>
      if h : x = y then .isTrue (by rw [h]) else .isFalse (by simp [h])
  | .error x, .error y =>
      if h : x = y then .isTrue (by rw [h]) else .isFalse (by simp [h])
  | .ok _, .error _ => .isFalse (by simp)
  | .error _, .ok _ => .isFalse (by simp)

/-- Outcome of `response.json()` when a response object was obtained. -/
inductive BodyParse where
  | invalid (asReqExc : Bool)
  | valid (data : Reading)
deriving DecidableEq

/-- Outcome of one `requests.get` call: either the call raises a
`requests.exceptions.RequestException` (network error / timeout), or a
response object arrives, with its truthiness (`ok`, i.e. status < 400) and
the result of parsing its body. -/
inductive FetchOutcome where
  | netError
  | response (ok : Bool) (body : BodyParse)
deriving DecidableEq

/-- The `try:` block of `HomeWizardP1Client.get_data` (meter_client.py,
lines 50-63): raise builtin `ConnectionError` on a falsy response, parse the
body, raise `ValueError` if the parsed object is falsy, otherwise succeed. -/
def get_data_try (out : FetchOutcome) : Except PyErr Reading :=
  match out with
  | .netError => .error .requestException
  | .response ok body =>
      if !ok then .error .connectionError
      else
        match body with
        | .invalid b => .error (.jsonDecodeError b)
        | .valid data =>
            if data.isEmpty then .error .valueError else .ok data

/-- `HomeWizardP1Client.get_data` (non-mock path, meter_client.py lines
50-71): on success the parsed object becomes the new `_last_valid_data` cache
and is returned; on a `requests.exceptions.RequestException` the cached data
is returned if non-empty, else the exception propagates; any other exception
propagates uncaught.  Returns the call's result together with the cache
afterwards. -/
def get_data (cache : Reading) (out : FetchOutcome) :
    Except PyErr Reading × Reading :=
  match get_data_try out with
  | .ok data => (.ok data, data)
  | .error e =>
      if e.isRequestException then
        if !cache.isEmpty then (.ok cache, cache) else (.error e, cache)
      else (.error e, cache)

/-- `HomeWizardP1Client.get_meter_serial` (meter_client.py lines 129-147):
in mock mode return the fixed mock serial; otherwise attempt one
`get_data`, swallow every exception into the sentinel, return the sentinel
when `data.get('unique_id')` is falsy, else return `data['unique_id']`. -/
def get_meter_serial (cache : Reading) (out : FetchOutcome) (mock : Bool) :
    Value × Reading :=
  if mock then (.str "MOCK_P1_METER_123", cache)
  else
    match get_data cache out with
    | (.error _, c) => (.str "Unknown_P1_Meter", c)
    | (.ok d, c) =>
        if truthyGet d "unique_id" then
          match lookupKey d "unique_id" with
          | some v => (v, c)
          | none => (.str "Unknown_P1_Meter", c)
        else (.str "Unknown_P1_Meter", c)

/-- `HomeWizardP1Client.is_three_phase_meter` (meter_client.py lines
149-164): membership of both L2 and L3 voltage keys. -/
def is_three_phase_meter (d : Reading) : Bool :=
  containsKey d "active_voltage_l2_v" && containsKey d "active_voltage_l3_v"

/-! ### The publish sink and the Publisher (`dbus_service.py`) -/

/-- The DBus sink, `self._dbusservice`, seen as a path-indexed store. -/
abbrev Sink := String → Value

/-- Point write `self._dbusservice[path] = v`. -/
def Sink.set (s : Sink) (p : String) (v : Value) : Sink :=
  fun q => if q = p then v else s q

/-- `d[k]`: raises `KeyError` when the key is absent. -/
def getItem (d : Reading) (k : String) : Except PyErr Value :=
  match lookupKey d k with
  | some v => .ok v
  | none => .error (.keyError k)

/-- Python `x / 1000` on a JSON value: numeric division, `TypeError` on
null or string operands. -/
def div1000 : Value → Except PyErr Value
  | .num q => .ok (.num (q / 1000))
  | _ => .error .typeError

/-- Run a sequence of `self._dbusservice[path] = meter_data[key]` statements
in order, stopping at the first `KeyError` and keeping the writes already
performed (Python statements before the raising one have taken effect). -/
def runWrites (d : Reading) (steps : List (String × String)) (s : Sink) :
    Sink × Option PyErr :=
  match steps with
  | [] => (s, none)
  | (path, key) :: rest =>
      match getItem d key with
      | .error e => (s, some e)
      | .ok v => runWrites d rest (s.set path v)

/-- The ten direct writes of `_update_three_phase_values`
(dbus_service.py lines 192-201), in source order. -/
def threePhaseSteps : List (String × String) :=
  [("/Ac/Power", "active_power_w"),
   ("/Ac/L1/Voltage", "active_voltage_l1_v"),
   ("/Ac/L2/Voltage", "active_voltage_l2_v"),
   ("/Ac/L3/Voltage", "active_voltage_l3_v"),
   ("/Ac/L1/Current", "active_current_l1_a"),
   ("/Ac/L2/Current", "active_current_l2_a"),
   ("/Ac/L3/Current", "active_current_l3_a"),
   ("/Ac/L1/Power", "active_power_l1_w"),
   ("/Ac/L2/Power", "active_power_l2_w"),
   ("/Ac/L3/Power", "active_power_l3_w")]

/-- The four direct writes of `_update_single_phase_values`
(dbus_service.py lines 216-219), in source order. -/
def singlePhaseSteps : List (String × String) :=
  [("/Ac/Power", "active_power_w"),
   ("/Ac/L1/Voltage", "active_voltage_l1_v"),
   ("/Ac/L1/Current", "active_current_l1_a"),
   ("/Ac/L1/Power", "active_power_l1_w")]

/-- The kWh-to-MWh conversion block: compute
`meter_data['total_power_import_kwh'] / 1000` then
`meter_data['total_power_export_kwh'] / 1000`; both lookups and divisions
happen before any energy write. -/
def energyValues (d : Reading) : Except PyErr (Value × Value) :=
  match getItem d "total_power_import_kwh" with
  | .error e => .error e
  | .ok vf =>
      match div1000 vf with
      | .error e => .error e
      | .ok f =>
          match getItem d "total_power_export_kwh" with
          | .error e => .error e
          | .ok vr =>
              match div1000 vr with
              | .error e => .error e
              | .ok r => .ok (f, r)

/-- `_update_three_phase_values` (dbus_service.py lines 185-207).  Returns
the sink after the writes that took effect, plus the exception that escaped,
if any. -/
def update_three_phase_values (d : Reading) (s : Sink) :
    Sink × Option PyErr :=
  match runWrites d threePhaseSteps s with
  | (s1, some e) => (s1, some e)
  | (s1, none) =>
      match energyValues d with
      | .error e => (s1, some e)
      | .ok (f, r) =>
          ((s1.set "/Ac/Energy/Forward" f).set "/Ac/Energy/Reverse" r, none)

/-- `_update_single_phase_values` (dbus_service.py lines 209-227). -/
def update_single_phase_values (d : Reading) (s : Sink) :
    Sink × Option PyErr :=
  match runWrites d singlePhaseSteps s with
  | (s1, some e) => (s1, some e)
  | (s1, none) =>
      match energyValues d with
      | .error e => (s1, some e)
      | .ok (f, r) =>
          (((((s1.set "/Ac/Energy/Forward" f).set "/Ac/Energy/Reverse" r).set
              "/Ac/L1/Energy/Forward" f).set "/Ac/L1/Energy/Reverse" r), none)

/-- `_update_dbus_paths` (dbus_service.py lines 170-183): dispatch on
`is_three_phase_meter`. -/
def update_dbus_paths (d : Reading) (s : Sink) : Sink × Option PyErr :=
  if is_three_phase_meter d then update_three_phase_values d s
  else update_single_phase_values d s

/-- The mutable state of one `DbusHomeWizardP1Service` together with its
meter client: the client's `_last_valid_data` cache, the sink contents, and
`self._last_update`. -/
structure ServiceState where
  cache : Reading
  sink : Sink
  lastUpdate : ℚ

/-- `_update` (dbus_service.py lines 143-168): fetch via `get_data` (which
may itself fall back to or update the client cache), skip on a falsy
reading, run `_update_dbus_paths`, and set `self._last_update = time.time()`
only if that write sequence raised nothing; every exception is caught and
the callback returns True on all paths. -/
def update (st : ServiceState) (out : FetchOutcome) (now : ℚ) :
    Bool × ServiceState :=
  match get_data st.cache out with
  | (.error _, c) => (true, ⟨c, st.sink, st.lastUpdate⟩)
  | (.ok d, c) =>
      if d.isEmpty then (true, ⟨c, st.sink, st.lastUpdate⟩)
      else
        match update_dbus_paths d st.sink with
        | (s1, some _) => (true, ⟨c, s1, st.lastUpdate⟩)
        | (s1, none) => (true, ⟨c, s1, now⟩)

/-- `_sign_of_life` (dbus_service.py lines 130-141): logs
`self._last_update` and the sink value at `/Ac/Power` (both total reads in
this model, as in VeDbusService) and returns True unconditionally.  The
returned pair records what was logged. -/
def sign_of_life (st : ServiceState) : Bool × ℚ × Value :=
  (true, st.lastUpdate, st.sink "/Ac/Power")

/-! ### Mock mode (`_get_mock_data`, meter_client.py lines 73-118) -/

/-- Python `round(x, n)` on a rational: round half to even (banker's
rounding), the tie rule of Python's `round`.  (Python rounds binary floats,
whose representation error can shift an exact decimal tie; no claim here
depends on tie inputs.) -/
def roundHalfEven (x : ℚ) : ℤ :=
  if x - x.floor < 1 / 2 then x.floor
  else if 1 / 2 < x - x.floor then x.floor + 1
  else if x.floor % 2 = 0 then x.floor else x.floor + 1

/-- `round(x, n)` for `n` decimal digits. -/
def pyRound (n : ℕ) (x : ℚ) : ℚ :=
  (roundHalfEven (x * 10 ^ n) : ℚ) / 10 ^ n

/-- One call's draws from Python's `random` module inside `_get_mock_data`,
in the source's order of use: `randint(800, 1200)` for power (inclusive
bounds), `uniform(225.0, 235.0)` for voltages, `choice([True, False])` for
the three-phase coin, `random()` in [0,1) for the energy offsets, and the
per-phase draws used only when the coin is true. -/
structure MockRand where
  power : ℤ
  voltage1 : ℚ
  threePhase : Bool
  importRand : ℚ
  exportRand : ℚ
  voltage2 : ℚ
  voltage3 : ℚ
  power2 : ℤ
  power3 : ℤ
deriving DecidableEq, Repr

/-- The ranges Python's `random` calls can produce: `randint(800, 1200)` is
inclusive on both ends; `uniform` and `random` draws as documented. -/
def MockRand.Valid (r : MockRand) : Prop :=
  800 ≤ r.power ∧ r.power ≤ 1200 ∧
  225 ≤ r.voltage1 ∧ r.voltage1 ≤ 235 ∧
  0 ≤ r.importRand ∧ r.importRand < 1 ∧
  0 ≤ r.exportRand ∧ r.exportRand < 1 ∧
  225 ≤ r.voltage2 ∧ r.voltage2 ≤ 235 ∧
  225 ≤ r.voltage3 ∧ r.voltage3 ≤ 235 ∧
  800 ≤ r.power2 ∧ r.power2 ≤ 1200 ∧
  800 ≤ r.power3 ∧ r.power3 ≤ 1200

instance (r : MockRand) : Decidable r.Valid := by
  unfold MockRand.Valid; infer_instance

/-- `_get_mock_data` (meter_client.py lines 73-118) as a function of the
random draws: the base single-phase dict, then, when the three-phase coin is
true, `data.update({...})` overwriting `active_power_w` with the sum and
appending the L2/L3 entries in the update dict's order. -/
def mock_data (r : MockRand) : Reading :=
  let power : ℚ := r.power
  let base : Reading :=
    [("unique_id", .str "MOCK_P1_METER_123"),
     ("active_power_w", .num power),
     ("active_voltage_l1_v", .num (pyRound 1 r.voltage1)),
     ("active_current_l1_a", .num (pyRound 2 (power / r.voltage1))),
     ("active_power_l1_w", .num power),
     ("total_power_import_kwh", .num (5000 + r.importRand * 10)),
     ("total_power_export_kwh", .num (100 + r.exportRand * 5))]
  if r.threePhase then
    let p2 : ℚ := r.power2
    let p3 : ℚ := r.power3
    setKey (setKey (setKey (setKey (setKey (setKey (setKey base
      "active_power_w" (.num (power + p2 + p3)))
      "active_voltage_l2_v" (.num (pyRound 1 r.voltage2)))
      "active_voltage_l3_v" (.num (pyRound 1 r.voltage3)))
      "active_current_l2_a" (.num (pyRound 2 (p2 / r.voltage2))))
      "active_current_l3_a" (.num (pyRound 2 (p3 / r.voltage3))))
      "active_power_l2_w" (.num p2))
      "active_power_l3_w" (.num p3)
  else base

/-! ### Concrete inputs used by the claims -/

/-- The sink paths `_update_single_phase_values` can write. -/
def singlePhaseTouched : List String :=
  ["/Ac/Power", "/Ac/L1/Voltage", "/Ac/L1/Current", "/Ac/L1/Power",
   "/Ac/Energy/Forward", "/Ac/Energy/Reverse",
   "/Ac/L1/Energy/Forward", "/Ac/L1/Energy/Reverse"]

/-- Every registered L2/L3 sink path: the six voltage/current/power paths of
the three-phase mapping plus the `/Ac/L{2,3}/Energy/*` paths registered at
startup (`__main__.py` lines 102-115). -/
def l23Paths : List String :=
  ["/Ac/L2/Voltage", "/Ac/L3/Voltage", "/Ac/L2/Current", "/Ac/L3/Current",
   "/Ac/L2/Power", "/Ac/L3/Power",
   "/Ac/L2/Energy/Forward", "/Ac/L2/Energy/Reverse",
   "/Ac/L3/Energy/Forward", "/Ac/L3/Energy/Reverse"]

/-- The spec's single-phase example record (current 4.35 A = 87/20). -/
def singlePhaseExample : Reading :=
  [("active_power_w", .num 1000), ("active_voltage_l1_v", .num 230),
   ("active_current_l1_a", .num (mkRat 87 20)), ("active_power_l1_w", .num 1000),
   ("total_power_import_kwh", .num 5000), ("total_power_export_kwh", .num 100)]

/-- The spec's three-phase example record: the single-phase record plus the
L2/L3 fields, with the larger energy totals. -/
def threePhaseExample : Reading :=
  [("active_power_w", .num 1000), ("active_voltage_l1_v", .num 230),
   ("active_current_l1_a", .num (mkRat 87 20)), ("active_power_l1_w", .num 1000),
   ("active_voltage_l2_v", .num 230), ("active_voltage_l3_v", .num 230),
   ("active_current_l2_a", .num (mkRat 87 20)),
   ("active_current_l3_a", .num (mkRat 87 20)),
   ("active_power_l2_w", .num 1000), ("active_power_l3_w", .num 1000),
   ("total_power_import_kwh", .num 15000), ("total_power_export_kwh", .num 300)]

/-- A three-phase-flagged reading (both L2/L3 voltage keys present) that is
missing `active_power_l3_w`; every other field of the three-phase mapping is
present. -/
def c1reading : Reading :=
  [("active_power_w", .num 1000), ("active_voltage_l1_v", .num 230),
   ("active_voltage_l2_v", .num 230), ("active_voltage_l3_v", .num 230),
   ("active_current_l1_a", .num 4), ("active_current_l2_a", .num 4),
   ("active_current_l3_a", .num 4), ("active_power_l1_w", .num 1000),
   ("active_power_l2_w", .num 1000),
   ("total_power_import_kwh", .num 15000), ("total_power_export_kwh", .num 300)]

/-- A service state whose sink holds 0 at every path (the registered paths'
initial values), with an empty client cache. -/
def c1state : ServiceState := ⟨[], fun _ => .num 0, 0⟩

/-- A cache holding one prior successful reading. -/
def c3cache : Reading := [("active_power_w", .num 1000)]

/-- A concrete draw for `_get_mock_data`: power 1200 (the inclusive top of
`randint(800, 1200)`), voltage 230 V, the import offset drawn high (0.9). -/
def mockDraw1 : MockRand :=
  { power := 1200, voltage1 := 230, threePhase := false,
    importRand := mkRat 9 10, exportRand := mkRat 1 2,
    voltage2 := 230, voltage3 := 230, power2 := 1000, power3 := 1000 }

/-- The next call's draw: identical but with the import offset drawn low
(0.1), so the synthesized import counter decreases between the calls. -/
def mockDraw2 : MockRand := { mockDraw1 with importRand := mkRat 1 10 }

/-- A draw whose three-phase coin is true (other draws as in `mockDraw1`),
exercising the `data.update` branch of `_get_mock_data`. -/
def mockDraw3 : MockRand := { mockDraw1 with threePhase := true }

/-! ### Helper lemmas -/

/-- A successful key lookup means the dict is non-empty (hence truthy). -/
theorem lookup_ne_nil {d : Reading} {k : String} {v : Value}
    (h : lookupKey d k = some v) : d.isEmpty = false := by
  cases d with
  | nil => simp [lookupKey] at h
  | cons hd tl => rfl

/-- Key presence depends only on the dict's key list, not on the values. -/
theorem lookup_isSome_congr {d d' : Reading}
    (h : d.map Prod.fst = d'.map Prod.fst) (k : String) :
    (lookupKey d k).isSome = (lookupKey d' k).isSome := by
  induction d generalizing d' with
  | nil =>
      cases d' with
      | nil => rfl
      | cons hd' tl' => simp at h
  | cons hd tl ih =>
      cases d' with
      | nil => simp at h
      | cons hd' tl' =>
          simp only [List.map_cons, List.cons.injEq] at h
          obtain ⟨h1, h2⟩ := h
          simp only [lookupKey, h1]
          by_cases hk : hd'.1 = k
          · simp [hk]
          · simp [hk, ih h2]

/-- A write sequence never changes a sink path that is not among its target
paths, including when it stops early at a `KeyError`. -/
theorem runWrites_preserve (d : Reading) (steps : List (String × String))
    (s : Sink) (p : String) (hp : ∀ pk ∈ steps, p ≠ pk.1) :
    (runWrites d steps s).1 p = s p := by
  induction steps generalizing s with
  | nil => rfl
  | cons st rest ih =>
      obtain ⟨path, key⟩ := st
      simp only [runWrites]
      cases getItem d key with
      | error e => rfl
      | ok v =>
          rw [ih (s.set path v) fun pk hpk => hp pk (List.mem_cons_of_mem _ hpk)]
          simp only [Sink.set]
          rw [if_neg (hp (path, key) (List.mem_cons_self _ _))]

/-- `_update_single_phase_values` leaves every path outside its own write set
unchanged, whether or not it aborts on a `KeyError`. -/
theorem update_single_phase_preserve (d : Reading) (s : Sink) (p : String)
    (hp : p ∉ singlePhaseTouched) :
    (update_single_phase_values d s).1 p = s p := by
  have hsteps : ∀ pk ∈ singlePhaseSteps, p ≠ pk.1 := by
    intro pk hpk
    simp only [singlePhaseSteps, List.mem_cons, List.not_mem_nil, or_false] at hpk
    simp only [singlePhaseTouched, List.mem_cons, List.not_mem_nil, or_false,
      not_or] at hp
    rcases hpk with h | h | h | h <;> subst h <;> simp_all
  have hrw := runWrites_preserve d singlePhaseSteps s p hsteps
  simp only [singlePhaseTouched, List.mem_cons, List.not_mem_nil, or_false,
    not_or] at hp
  unfold update_single_phase_values
  rcases h : runWrites d singlePhaseSteps s with ⟨s1, e⟩
  rw [h] at hrw
  cases e with
  | some e => exact hrw
  | none =>
      cases henergy : energyValues d with
      | error e => exact hrw
      | ok fr =>
          obtain ⟨f, r⟩ := fr
          simp only [Sink.set]
          rw [if_neg, if_neg, if_neg, if_neg]
          · exact hrw
          all_goals tauto

/-! ### Claims -/

/-- C2: `is_three_phase_meter` returns true iff both `active_voltage_l2_v`
and `active_voltage_l3_v` are present as keys of the reading, regardless of
the associated values (the result depends only on the key list; zero or null
values still count as present); it is a pure function of its argument. -/
theorem C2_is_three_phase_iff_keys (d e : Reading)
    (hkeys : d.map Prod.fst = e.map Prod.fst) :
    (is_three_phase_meter d = true ↔
      (∃ v, lookupKey d "active_voltage_l2_v" = some v) ∧
      (∃ v, lookupKey d "active_voltage_l3_v" = some v)) ∧
    is_three_phase_meter d = is_three_phase_meter e := by
  constructor
  · simp [is_three_phase_meter, containsKey, Option.isSome_iff_exists,
      Bool.and_eq_true]
  · simp only [is_three_phase_meter, containsKey,
      lookup_isSome_congr hkeys "active_voltage_l2_v",
      lookup_isSome_congr hkeys "active_voltage_l3_v"]

theorem C2_witness :
    (is_three_phase_meter
        [("active_voltage_l2_v", Value.num 0), ("active_voltage_l3_v", Value.null)] = true ↔
      (∃ v, lookupKey
        [("active_voltage_l2_v", Value.num 0), ("active_voltage_l3_v", Value.null)]
        "active_voltage_l2_v" = some v) ∧
      (∃ v, lookupKey
        [("active_voltage_l2_v", Value.num 0), ("active_voltage_l3_v", Value.null)]
        "active_voltage_l3_v" = some v)) ∧
    is_three_phase_meter
        [("active_voltage_l2_v", Value.num 0), ("active_voltage_l3_v", Value.null)] =
      is_three_phase_meter
        [("active_voltage_l2_v", Value.str "x"), ("active_voltage_l3_v", Value.num 7)] :=
  C2_is_three_phase_iff_keys _ _ (by rfl)

/-- C4: starting from a non-empty cache holding one prior successful reading,
two consecutive failing fetches (network error / timeout, i.e. a requests
`RequestException`) both return exactly that cached reading, and neither
failing call mutates the cache. -/
theorem C4_cached_on_two_failures (cache : Reading)
    (h : cache.isEmpty = false) :
    get_data cache .netError = (.ok cache, cache) ∧
    get_data (get_data cache .netError).2 .netError = (.ok cache, cache) := by
  have h1 : get_data cache .netError = (.ok cache, cache) := by
    simp [get_data, get_data_try, PyErr.isRequestException, h]
  exact ⟨h1, by rw [h1]; exact h1⟩

theorem C4_witness :
    get_data [("active_power_w", Value.num 1000)] .netError =
      (.ok [("active_power_w", Value.num 1000)], [("active_power_w", Value.num 1000)]) ∧
    get_data (get_data [("active_power_w", Value.num 1000)] .netError).2 .netError =
      (.ok [("active_power_w", Value.num 1000)], [("active_power_w", Value.num 1000)]) :=
  C4_cached_on_two_failures _ (by rfl)

/-- C6: with an empty cache, a failing fetch makes `get_data` propagate the
error while `get_meter_serial` in the same state returns the sentinel
"Unknown_P1_Meter" without raising; the sentinel is also returned whenever
`unique_id` is absent or the empty string, and the `unique_id` value itself
is returned when present and non-empty. -/
theorem C6_meter_serial (dabs demp dval : Reading) (s : String) (hs : s ≠ "")
    (habs : lookupKey dabs "unique_id" = none) (hne : dabs.isEmpty = false)
    (hemp : lookupKey demp "unique_id" = some (.str ""))
    (hval : lookupKey dval "unique_id" = some (.str s)) :
    (get_data [] .netError).1 = .error .requestException ∧
    get_meter_serial [] .netError false = (.str "Unknown_P1_Meter", []) ∧
    (get_meter_serial [] (.response true (.valid dabs)) false).1 =
      .str "Unknown_P1_Meter" ∧
    (get_meter_serial [] (.response true (.valid demp)) false).1 =
      .str "Unknown_P1_Meter" ∧
    (get_meter_serial [] (.response true (.valid dval)) false).1 = .str s := by
  refine ⟨by simp [get_data, get_data_try, PyErr.isRequestException],
    by simp [get_meter_serial, get_data, get_data_try, PyErr.isRequestException],
    ?_, ?_, ?_⟩
  · simp [get_meter_serial, get_data, get_data_try, hne, truthyGet, habs]
  · simp [get_meter_serial, get_data, get_data_try, lookup_ne_nil hemp,
      truthyGet, hemp, Value.truthy]
  · simp [get_meter_serial, get_data, get_data_try, lookup_ne_nil hval,
      truthyGet, hval, Value.truthy, hs]

theorem C6_witness :
    (get_data [] .netError).1 = .error .requestException ∧
    get_meter_serial [] .netError false = (.str "Unknown_P1_Meter", []) ∧
    (get_meter_serial []
        (.response true (.valid [("active_power_w", Value.num 1)])) false).1 =
      .str "Unknown_P1_Meter" ∧
    (get_meter_serial []
        (.response true (.valid [("unique_id", Value.str "")])) false).1 =
      .str "Unknown_P1_Meter" ∧
    (get_meter_serial []
        (.response true (.valid [("unique_id", Value.str "HWE-P1-XYZ")])) false).1 =
      .str "HWE-P1-XYZ" :=
  C6_meter_serial _ _ _ _ (by decide) (by rfl) (by rfl) (by rfl) (by rfl)

/-- C8: the Publisher's `_last_update` timestamp is left unchanged by every
cycle that is skipped (fetch error with no cache, falsy reading) or aborted
(exception during field mapping); it changes only at the end of a cycle
whose fetch returned a truthy reading and whose full write sequence raised
nothing, and then it is set to the cycle's current time. -/
theorem C8_timestamp_only_on_success (st : ServiceState) (out : FetchOutcome)
    (now : ℚ) :
    (update st out now).2.lastUpdate = st.lastUpdate ∨
    ((update st out now).2.lastUpdate = now ∧
     ∃ d, (get_data st.cache out).1 = .ok d ∧ d.isEmpty = false ∧
       (update_dbus_paths d st.sink).2 = none) := by
  unfold update
  rcases hg : get_data st.cache out with ⟨res, c⟩
  cases res with
  | error e => exact Or.inl rfl
  | ok d =>
      by_cases hd : d.isEmpty
      · exact Or.inl (by simp [hd])
      · rcases hu : update_dbus_paths d st.sink with ⟨s1, e⟩
        cases e with
        | some e => exact Or.inl (by simp [hd, hu])
        | none =>
            refine Or.inr ⟨by simp [hd, hu], d, rfl, by simpa using hd,
              by rw [hu]⟩

/-- C10: the fast-timer callback `_update` returns True on every path
(fetch failure, falsy reading, exception during mapping) and the liveness
callback `_sign_of_life` returns True, so both periodic timers stay
scheduled. -/
theorem C10_callbacks_return_true (st : ServiceState) (out : FetchOutcome)
    (now : ℚ) :
    (update st out now).1 = true ∧ (sign_of_life st).1 = true := by
  refine ⟨?_, rfl⟩
  unfold update
  rcases hg : get_data st.cache out with ⟨res, c⟩
  cases res with
  | error e => rfl
  | ok d =>
      by_cases hd : d.isEmpty
      · simp [hd]
      · rcases hu : update_dbus_paths d st.sink with ⟨s1, e⟩
        cases e <;> simp [hd, hu]

/-- C5: normalization divides the kWh totals by 1000 and copies
`active_power_w` to the aggregate power path.  On the spec's single-phase
example (import 5000, export 100) it writes AggregatePower 1000,
EnergyForward 5, EnergyReverse 0.1, with the L1 energy pair duplicating the
aggregates; on the three-phase example (import 15000, export 300) it writes
EnergyForward 15, EnergyReverse 0.3, and performs no L1-specific energy
duplication (those paths keep their prior sink values). -/
theorem C5_normalization_examples (s : Sink) :
    is_three_phase_meter singlePhaseExample = false ∧
    (update_dbus_paths singlePhaseExample s).2 = none ∧
    (update_dbus_paths singlePhaseExample s).1 "/Ac/Power" = .num 1000 ∧
    (update_dbus_paths singlePhaseExample s).1 "/Ac/Energy/Forward" = .num 5 ∧
    (update_dbus_paths singlePhaseExample s).1 "/Ac/Energy/Reverse" =
      .num (1 / 10) ∧
    (update_dbus_paths singlePhaseExample s).1 "/Ac/L1/Energy/Forward" =
      .num 5 ∧
    (update_dbus_paths singlePhaseExample s).1 "/Ac/L1/Energy/Reverse" =
      .num (1 / 10) ∧
    is_three_phase_meter threePhaseExample = true ∧
    (update_dbus_paths threePhaseExample s).2 = none ∧
    (update_dbus_paths threePhaseExample s).1 "/Ac/Energy/Forward" =
      .num 15 ∧
    (update_dbus_paths threePhaseExample s).1 "/Ac/Energy/Reverse" =
      .num (3 / 10) ∧
    (update_dbus_paths threePhaseExample s).1 "/Ac/L1/Energy/Forward" =
      s "/Ac/L1/Energy/Forward" ∧
    (update_dbus_paths threePhaseExample s).1 "/Ac/L1/Energy/Reverse" =
      s "/Ac/L1/Energy/Reverse" := by
  simp +decide [update_dbus_paths, update_single_phase_values,
    update_three_phase_values, runWrites, energyValues, getItem, div1000,
    lookupKey, singlePhaseSteps, threePhaseSteps, is_three_phase_meter,
    containsKey, singlePhaseExample, threePhaseExample, Sink.set]
  norm_num

/-- C7: a cycle whose obtained reading classifies as single-phase (missing
an L2 or L3 voltage key) writes no L2/L3 sink path: after the cycle every
L2/L3 voltage, current, power and energy path holds exactly its prior
value. -/
theorem C7_single_phase_frame (st : ServiceState) (out : FetchOutcome)
    (now : ℚ) (d : Reading) (p : String)
    (hok : (get_data st.cache out).1 = .ok d)
    (hsp : is_three_phase_meter d = false)
    (hp : p ∈ l23Paths) :
    (update st out now).2.sink p = st.sink p := by
  have hnt : p ∉ singlePhaseTouched := by
    have hall : ∀ q ∈ l23Paths, q ∉ singlePhaseTouched := by decide
    exact hall p hp
  unfold update
  rcases hg : get_data st.cache out with ⟨res, c⟩
  rw [hg] at hok
  simp only at hok
  subst hok
  by_cases hd : d.isEmpty
  · simp [hd]
  · rcases hu : update_dbus_paths d st.sink with ⟨s1, e⟩
    have hu2 : update_single_phase_values d st.sink = (s1, e) := by
      rw [← hu, update_dbus_paths, hsp]
      simp
    have hpres := update_single_phase_preserve d st.sink p hnt
    rw [hu2] at hpres
    cases e <;> simp [hd, hu] <;> exact hpres

theorem C7_witness :
    (get_data [] (.response true (.valid singlePhaseExample))).1 =
      .ok singlePhaseExample ∧
    is_three_phase_meter singlePhaseExample = false ∧
    ("/Ac/L2/Energy/Forward" : String) ∈ l23Paths ∧
    (update ⟨[], fun _ => Value.num 0, 0⟩
        (.response true (.valid singlePhaseExample)) 42).2.sink
      "/Ac/L2/Energy/Forward" =
      (⟨[], fun _ => Value.num 0, 0⟩ : ServiceState).sink
        "/Ac/L2/Energy/Forward" :=
  ⟨rfl, by decide, by decide,
    C7_single_phase_frame ⟨[], fun _ => Value.num 0, 0⟩
      (.response true (.valid singlePhaseExample)) 42 singlePhaseExample
      "/Ac/L2/Energy/Forward" rfl (by decide) (by decide)⟩

/-- C1 counterexample: a three-phase-flagged reading missing
`active_power_l3_w` does abort the cycle (the callback returns True and
`_last_update` is untouched), but it does NOT leave every previously
written sink value unchanged: starting from a sink whose AggregatePower is
0, the aborted cycle leaves AggregatePower at the malformed reading's
`active_power_w` value 1000, because `/Ac/Power` is written before the
missing key is accessed. -/
theorem C1_counterexample :
    is_three_phase_meter c1reading = true ∧
    lookupKey c1reading "active_power_l3_w" = none ∧
    (update c1state (.response true (.valid c1reading)) 42).1 = true ∧
    (update c1state (.response true (.valid c1reading)) 42).2.lastUpdate =
      c1state.lastUpdate ∧
    c1state.sink "/Ac/Power" = .num 0 ∧
    (update c1state (.response true (.valid c1reading)) 42).2.sink "/Ac/Power" =
      .num 1000 ∧
    Value.num 1000 ≠ Value.num 0 := by
  refine ⟨by decide, by decide, by decide, by decide, by decide, by decide,
    by decide⟩

/-- C1 (amended): on a three-phase-flagged reading missing
`active_power_l3_w` (all earlier fields of the three-phase mapping present),
the update cycle aborts after logging — the callback returns True, nothing
raises past it, and `_last_update` is unchanged — but the sink writes that
precede the missing-key access have already taken effect: `/Ac/Power` now
holds the malformed reading's `active_power_w`, while the paths at or after
the failing access (`/Ac/L3/Power` and both energy paths) keep their prior
values. -/
theorem C1_malformed_three_phase_partial_write (st : ServiceState) (now : ℚ)
    (d : Reading) (vp v1 v2 v3 i1 i2 i3 w1 w2 : Value)
    (hpw : lookupKey d "active_power_w" = some vp)
    (hv1 : lookupKey d "active_voltage_l1_v" = some v1)
    (hv2 : lookupKey d "active_voltage_l2_v" = some v2)
    (hv3 : lookupKey d "active_voltage_l3_v" = some v3)
    (hi1 : lookupKey d "active_current_l1_a" = some i1)
    (hi2 : lookupKey d "active_current_l2_a" = some i2)
    (hi3 : lookupKey d "active_current_l3_a" = some i3)
    (hw1 : lookupKey d "active_power_l1_w" = some w1)
    (hw2 : lookupKey d "active_power_l2_w" = some w2)
    (hmiss : lookupKey d "active_power_l3_w" = none) :
    (update st (.response true (.valid d)) now).1 = true ∧
    (update st (.response true (.valid d)) now).2.lastUpdate =
      st.lastUpdate ∧
    (update st (.response true (.valid d)) now).2.sink "/Ac/Power" = vp ∧
    (update st (.response true (.valid d)) now).2.sink "/Ac/L3/Power" =
      st.sink "/Ac/L3/Power" ∧
    (update st (.response true (.valid d)) now).2.sink "/Ac/Energy/Forward" =
      st.sink "/Ac/Energy/Forward" ∧
    (update st (.response true (.valid d)) now).2.sink "/Ac/Energy/Reverse" =
      st.sink "/Ac/Energy/Reverse" := by
  have hd : d.isEmpty = false := lookup_ne_nil hpw
  have h3 : is_three_phase_meter d = true := by
    simp [is_three_phase_meter, containsKey, hv2, hv3]
  have hupd : update st (.response true (.valid d)) now =
      (true, ⟨d, ((((((((st.sink.set "/Ac/Power" vp).set "/Ac/L1/Voltage"
        v1).set "/Ac/L2/Voltage" v2).set "/Ac/L3/Voltage" v3).set
        "/Ac/L1/Current" i1).set "/Ac/L2/Current" i2).set "/Ac/L3/Current"
        i3).set "/Ac/L1/Power" w1).set "/Ac/L2/Power" w2,
        st.lastUpdate⟩) := by
    simp [update, get_data, get_data_try, hd, update_dbus_paths, h3,
      update_three_phase_values, threePhaseSteps, runWrites, getItem,
      hpw, hv1, hv2, hv3, hi1, hi2, hi3, hw1, hw2, hmiss]
  rw [hupd]
  refine ⟨rfl, rfl, ?_, ?_, ?_, ?_⟩ <;> simp +decide [Sink.set]

theorem C1_witness :
    lookupKey c1reading "active_power_l3_w" = none ∧
    ((update c1state (.response true (.valid c1reading)) 42).1 = true ∧
     (update c1state (.response true (.valid c1reading)) 42).2.lastUpdate =
       c1state.lastUpdate ∧
     (update c1state (.response true (.valid c1reading)) 42).2.sink
       "/Ac/Power" = .num 1000 ∧
     (update c1state (.response true (.valid c1reading)) 42).2.sink
       "/Ac/L3/Power" = c1state.sink "/Ac/L3/Power" ∧
     (update c1state (.response true (.valid c1reading)) 42).2.sink
       "/Ac/Energy/Forward" = c1state.sink "/Ac/Energy/Forward" ∧
     (update c1state (.response true (.valid c1reading)) 42).2.sink
       "/Ac/Energy/Reverse" = c1state.sink "/Ac/Energy/Reverse") :=
  ⟨by decide,
   C1_malformed_three_phase_partial_write c1state 42 c1reading
     (.num 1000) (.num 230) (.num 230) (.num 230) (.num 4) (.num 4) (.num 4)
     (.num 1000) (.num 1000) (by decide) (by decide) (by decide) (by decide)
     (by decide) (by decide) (by decide) (by decide) (by decide) (by decide)⟩

/-- C3 counterexample: with a non-empty cache, a fetch whose HTTP response
arrives successfully but parses to an empty JSON object does NOT return the
cached reading: `get_data` raises `ValueError`, which is not caught by the
`except requests.exceptions.RequestException` handler, so the cache is
bypassed and the error propagates. -/
theorem C3_counterexample :
    c3cache.isEmpty = false ∧
    (get_data c3cache (.response true (.valid []))).1 = .error .valueError ∧
    (get_data c3cache (.response true (.valid []))).1 ≠ .ok c3cache := by
  refine ⟨rfl, by decide, by decide⟩

/-- C3 (amended): an empty-object body on a successful HTTP response — and
an unparseable body whenever the JSON decode error is not a
`RequestException` subclass (requests < 2.27) — is NOT treated like a
network failure: the format error propagates to the caller even when a
cached reading exists, leaving the cache unchanged.  Only failures that are
`RequestException`s fall back to the cache (which includes the unparseable
case on requests >= 2.27, where `JSONDecodeError` subclasses
`RequestException`).  With no cache, the propagated format-error kind is
distinct from the connectivity kinds. -/
theorem C3_format_error_no_fallback (cache : Reading)
    (h : cache.isEmpty = false) :
    get_data cache (.response true (.valid [])) = (.error .valueError, cache) ∧
    get_data cache (.response true (.invalid false)) =
      (.error (.jsonDecodeError false), cache) ∧
    get_data cache (.response true (.invalid true)) = (.ok cache, cache) ∧
    get_data [] (.response true (.valid [])) = (.error .valueError, []) ∧
    PyErr.valueError ≠ PyErr.requestException ∧
    PyErr.valueError ≠ PyErr.connectionError ∧
    PyErr.jsonDecodeError false ≠ PyErr.requestException := by
  refine ⟨?_, ?_, ?_, by decide, by decide, by decide, by decide⟩ <;>
    simp [get_data, get_data_try, PyErr.isRequestException, h]

theorem C3_witness :
    c3cache.isEmpty = false ∧
    (get_data c3cache (.response true (.valid [])) =
      (.error .valueError, c3cache) ∧
     get_data c3cache (.response true (.invalid false)) =
      (.error (.jsonDecodeError false), c3cache) ∧
     get_data c3cache (.response true (.invalid true)) =
      (.ok c3cache, c3cache) ∧
     get_data [] (.response true (.valid [])) = (.error .valueError, []) ∧
     PyErr.valueError ≠ PyErr.requestException ∧
     PyErr.valueError ≠ PyErr.connectionError ∧
     PyErr.jsonDecodeError false ≠ PyErr.requestException) :=
  ⟨rfl, C3_format_error_no_fallback c3cache rfl⟩

/-- C9 counterexample: `_get_mock_data` draws the energy counters afresh on
every call (`5000 + random()*10`, `100 + random()*5`), so with valid draws
0.9 then 0.1 the second reading's import counter 5001 is smaller than the
first's 5009, refuting strict growth; moreover `randint(800, 1200)` can
produce 1200, which is outside [800, 1200); and the stored L1 current is
`round(power/voltage, 2)` = 5.22, not the exact quotient 1200/230. -/
theorem C9_counterexample :
    mockDraw1.Valid ∧ mockDraw2.Valid ∧
    lookupKey (mock_data mockDraw1) "total_power_import_kwh" =
      some (.num 5009) ∧
    lookupKey (mock_data mockDraw2) "total_power_import_kwh" =
      some (.num 5001) ∧
    ¬ ((5001 : ℚ) > 5009) ∧
    lookupKey (mock_data mockDraw1) "active_power_w" = some (.num 1200) ∧
    ¬ ((1200 : ℚ) < 1200) ∧
    lookupKey (mock_data mockDraw1) "active_current_l1_a" =
      some (.num (261 / 50)) ∧
    (261 / 50 : ℚ) ≠ 1200 / 230 := by
  refine ⟨by decide, by decide, ?_, ?_, by norm_num, ?_, by norm_num, ?_,
    by norm_num⟩
  · simp +decide [mock_data, lookupKey, mockDraw1]
    norm_num [mkRat]
  · simp +decide [mock_data, lookupKey, mockDraw2, mockDraw1]
    norm_num [mkRat]
  · simp +decide [mock_data, lookupKey, mockDraw1]
  · simp +decide [mock_data, lookupKey, mockDraw1]
    norm_num [pyRound, roundHalfEven, Rat.floor]

/-- C9 (amended): each mock reading's cumulative counters are freshly
randomized — import is `5000 + u*10` in [5000, 5010) and export is
`100 + w*5` in [100, 105) for that call's own draws, with no growth between
consecutive calls; power is an integer drawn from the inclusive range
[800, 1200]; the stored L1 voltage is the [225, 235] uniform draw rounded to
1 decimal and the stored L1 current is `round(power/voltage, 2)`; with the
three-phase coin false no L2/L3 voltage key is present; with the 50%
three-phase coin true, `active_power_w` is the three-phase sum and the
L2/L3 voltages, currents and powers are per-phase draws in the same ranges,
stored with the same rounding. -/
theorem C9_mock_reading_shape (r : MockRand) (h : r.Valid) :
    (lookupKey (mock_data r) "total_power_import_kwh" =
       some (.num (5000 + r.importRand * 10)) ∧
     5000 ≤ 5000 + r.importRand * 10 ∧ 5000 + r.importRand * 10 < 5010) ∧
    (lookupKey (mock_data r) "total_power_export_kwh" =
       some (.num (100 + r.exportRand * 5)) ∧
     100 ≤ 100 + r.exportRand * 5 ∧ 100 + r.exportRand * 5 < 105) ∧
    (lookupKey (mock_data r) "active_voltage_l1_v" =
       some (.num (pyRound 1 r.voltage1)) ∧
     225 ≤ r.voltage1 ∧ r.voltage1 ≤ 235) ∧
    lookupKey (mock_data r) "active_current_l1_a" =
      some (.num (pyRound 2 ((r.power : ℚ) / r.voltage1))) ∧
    (r.threePhase = false →
       lookupKey (mock_data r) "active_power_w" = some (.num r.power) ∧
       containsKey (mock_data r) "active_voltage_l2_v" = false ∧
       containsKey (mock_data r) "active_voltage_l3_v" = false) ∧
    (r.threePhase = true →
       lookupKey (mock_data r) "active_power_w" =
         some (.num ((r.power : ℚ) + (r.power2 : ℚ) + (r.power3 : ℚ))) ∧
       lookupKey (mock_data r) "active_voltage_l2_v" =
         some (.num (pyRound 1 r.voltage2)) ∧
       lookupKey (mock_data r) "active_voltage_l3_v" =
         some (.num (pyRound 1 r.voltage3)) ∧
       lookupKey (mock_data r) "active_current_l2_a" =
         some (.num (pyRound 2 ((r.power2 : ℚ) / r.voltage2))) ∧
       lookupKey (mock_data r) "active_current_l3_a" =
         some (.num (pyRound 2 ((r.power3 : ℚ) / r.voltage3))) ∧
       lookupKey (mock_data r) "active_power_l2_w" = some (.num r.power2) ∧
       lookupKey (mock_data r) "active_power_l3_w" = some (.num r.power3) ∧
       225 ≤ r.voltage2 ∧ r.voltage2 ≤ 235 ∧
       225 ≤ r.voltage3 ∧ r.voltage3 ≤ 235 ∧
       800 ≤ r.power2 ∧ r.power2 ≤ 1200 ∧
       800 ≤ r.power3 ∧ r.power3 ≤ 1200) ∧
    800 ≤ r.power ∧ r.power ≤ 1200 := by
  obtain ⟨hp1, hp2, hv1a, hv1b, him0, him1, hex0, hex1, hv2a, hv2b, hv3a,
    hv3b, hq2a, hq2b, hq3a, hq3b⟩ := h
  refine ⟨⟨?_, by linarith, by linarith⟩, ⟨?_, by linarith, by linarith⟩,
    ⟨?_, hv1a, hv1b⟩, ?_, ?_, ?_, hp1, hp2⟩
  · cases hc : r.threePhase <;>
      simp +decide [mock_data, lookupKey, setKey, hc]
  · cases hc : r.threePhase <;>
      simp +decide [mock_data, lookupKey, setKey, hc]
  · cases hc : r.threePhase <;>
      simp +decide [mock_data, lookupKey, setKey, hc]
  · cases hc : r.threePhase <;>
      simp +decide [mock_data, lookupKey, setKey, hc]
  · intro hc
    refine ⟨?_, ?_, ?_⟩ <;> simp +decide [mock_data, lookupKey, containsKey,
      setKey, hc]
  · intro hc
    refine ⟨?_, ?_, ?_, ?_, ?_, ?_, ?_, hv2a, hv2b, hv3a, hv3b, hq2a, hq2b,
      hq3a, hq3b⟩ <;>
      simp +decide [mock_data, lookupKey, containsKey, setKey, hc]

theorem C9_witness :
    mockDraw1.Valid ∧ mockDraw3.Valid ∧
    ((lookupKey (mock_data mockDraw1) "total_power_import_kwh" =
        some (.num (5000 + mockDraw1.importRand * 10)) ∧
      5000 ≤ 5000 + mockDraw1.importRand * 10 ∧
      5000 + mockDraw1.importRand * 10 < 5010) ∧
     (lookupKey (mock_data mockDraw1) "total_power_export_kwh" =
        some (.num (100 + mockDraw1.exportRand * 5)) ∧
      100 ≤ 100 + mockDraw1.exportRand * 5 ∧
      100 + mockDraw1.exportRand * 5 < 105) ∧
     (lookupKey (mock_data mockDraw1) "active_voltage_l1_v" =
        some (.num (pyRound 1 mockDraw1.voltage1)) ∧
      225 ≤ mockDraw1.voltage1 ∧ mockDraw1.voltage1 ≤ 235) ∧
     lookupKey (mock_data mockDraw1) "active_current_l1_a" =
       some (.num (pyRound 2 ((mockDraw1.power : ℚ) / mockDraw1.voltage1))) ∧
     (mockDraw1.threePhase = false →
        lookupKey (mock_data mockDraw1) "active_power_w" =
          some (.num mockDraw1.power) ∧
        containsKey (mock_data mockDraw1) "active_voltage_l2_v" = false ∧
        containsKey (mock_data mockDraw1) "active_voltage_l3_v" = false) ∧
     (mockDraw1.threePhase = true →
        lookupKey (mock_data mockDraw1) "active_power_w" =
          some (.num ((mockDraw1.power : ℚ) + (mockDraw1.power2 : ℚ) +
            (mockDraw1.power3 : ℚ))) ∧
        lookupKey (mock_data mockDraw1) "active_voltage_l2_v" =
          some (.num (pyRound 1 mockDraw1.voltage2)) ∧
        lookupKey (mock_data mockDraw1) "active_voltage_l3_v" =
          some (.num (pyRound 1 mockDraw1.voltage3)) ∧
        lookupKey (mock_data mockDraw1) "active_current_l2_a" =
          some (.num (pyRound 2 ((mockDraw1.power2 : ℚ) / mockDraw1.voltage2))) ∧
        lookupKey (mock_data mockDraw1) "active_current_l3_a" =
          some (.num (pyRound 2 ((mockDraw1.power3 : ℚ) / mockDraw1.voltage3))) ∧
        lookupKey (mock_data mockDraw1) "active_power_l2_w" =
          some (.num mockDraw1.power2) ∧
        lookupKey (mock_data mockDraw1) "active_power_l3_w" =
          some (.num mockDraw1.power3) ∧
        225 ≤ mockDraw1.voltage2 ∧ mockDraw1.voltage2 ≤ 235 ∧
        225 ≤ mockDraw1.voltage3 ∧ mockDraw1.voltage3 ≤ 235 ∧
        800 ≤ mockDraw1.power2 ∧ mockDraw1.power2 ≤ 1200 ∧
        800 ≤ mockDraw1.power3 ∧ mockDraw1.power3 ≤ 1200) ∧
     800 ≤ mockDraw1.power ∧ mockDraw1.power ≤ 1200) ∧
    ((lookupKey (mock_data mockDraw3) "total_power_import_kwh" =
        some (.num (5000 + mockDraw3.importRand * 10)) ∧
      5000 ≤ 5000 + mockDraw3.importRand * 10 ∧
      5000 + mockDraw3.importRand * 10 < 5010) ∧
     (lookupKey (mock_data mockDraw3) "total_power_export_kwh" =
        some (.num (100 + mockDraw3.exportRand * 5)) ∧
      100 ≤ 100 + mockDraw3.exportRand * 5 ∧
      100 + mockDraw3.exportRand * 5 < 105) ∧
     (lookupKey (mock_data mockDraw3) "active_voltage_l1_v" =
        some (.num (pyRound 1 mockDraw3.voltage1)) ∧
      225 ≤ mockDraw3.voltage1 ∧ mockDraw3.voltage1 ≤ 235) ∧
     lookupKey (mock_data mockDraw3) "active_current_l1_a" =
       some (.num (pyRound 2 ((mockDraw3.power : ℚ) / mockDraw3.voltage1))) ∧
     (mockDraw3.threePhase = false →
        lookupKey (mock_data mockDraw3) "active_power_w" =
          some (.num mockDraw3.power) ∧
        containsKey (mock_data mockDraw3) "active_voltage_l2_v" = false ∧
        containsKey (mock_data mockDraw3) "active_voltage_l3_v" = false) ∧
     (mockDraw3.threePhase = true →
        lookupKey (mock_data mockDraw3) "active_power_w" =
          some (.num ((mockDraw3.power : ℚ) + (mockDraw3.power2 : ℚ) +
            (mockDraw3.power3 : ℚ))) ∧
        lookupKey (mock_data mockDraw3) "active_voltage_l2_v" =
          some (.num (pyRound 1 mockDraw3.voltage2)) ∧
        lookupKey (mock_data mockDraw3) "active_voltage_l3_v" =
          some (.num (pyRound 1 mockDraw3.voltage3)) ∧
        lookupKey (mock_data mockDraw3) "active_current_l2_a" =
          some (.num (pyRound 2 ((mockDraw3.power2 : ℚ) / mockDraw3.voltage2))) ∧
        lookupKey (mock_data mockDraw3) "active_current_l3_a" =
          some (.num (pyRound 2 ((mockDraw3.power3 : ℚ) / mockDraw3.voltage3))) ∧
        lookupKey (mock_data mockDraw3) "active_power_l2_w" =
          some (.num mockDraw3.power2) ∧
        lookupKey (mock_data mockDraw3) "active_power_l3_w" =
          some (.num mockDraw3.power3) ∧
        225 ≤ mockDraw3.voltage2 ∧ mockDraw3.voltage2 ≤ 235 ∧
        225 ≤ mockDraw3.voltage3 ∧ mockDraw3.voltage3 ≤ 235 ∧
        800 ≤ mockDraw3.power2 ∧ mockDraw3.power2 ≤ 1200 ∧
        800 ≤ mockDraw3.power3 ∧ mockDraw3.power3 ≤ 1200) ∧
     800 ≤ mockDraw3.power ∧ mockDraw3.power ≤ 1200) :=
  ⟨by decide, by decide, C9_mock_reading_shape mockDraw1 (by decide),
   C9_mock_reading_shape mockDraw3 (by decide)⟩

end HomeWizard
